import Mathlib

/-!
Verification of the self-driving-car simulation (`self_driving_car.py`).

The Python source is shallowly embedded below: continuous quantities
(positions, speeds, lane-change progress) are modelled as exact rationals,
frame counters as integers, and the mutable `Car` objects as a record with a
stable `id` field standing in for Python object identity (`car == self` on
plain objects is reference equality).  The per-tick main loop
(`for car in cars: car.move(...)` followed by
`player_car.update_sensors_and_check_collision(cars)`) becomes the pure
`step` function on the list of cars; in-place sequential mutation is made
explicit by folding `List.set` over the car indices.  The randomness used by
NPC respawn is supplied as an explicit oracle `r : ℕ → ℕ × ℚ` giving the
respawn lane and speed for each car index.  Purely visual state (colors,
sensor ray endpoints, the HUD decision string) is omitted.
-/

/- Batteries marks the rational-number arithmetic `@[irreducible]`, which
blocks evaluation of the embedded program on concrete inputs inside proofs;
restore the default reducibility so that `decide`-style witnesses can run. -/
set_option allowUnsafeReducibility true in
attribute [semireducible] Rat.add Rat.sub Rat.mul Rat.inv Rat.ofScientific

namespace SDC

/-- Screen height (`HEIGHT = 800`). -/
def HEIGHT : ℚ := 800

/-- Vehicle rectangle width (`CAR_WIDTH = 30`). -/
def CAR_WIDTH : ℚ := 30

/-- Vehicle rectangle height (`CAR_HEIGHT = 50`). -/
def CAR_HEIGHT : ℚ := 50

/-- `PLAYER_SPEED_MAX = 5.0`, the agent's cruising maximum. -/
def PLAYER_SPEED_MAX : ℚ := 5

/-- `CHANGE_LANE_DISTANCE = 150`. -/
def CHANGE_LANE_DISTANCE : ℚ := 150

/-- `REAR_THREAT_DISTANCE = 100`. -/
def REAR_THREAT_DISTANCE : ℚ := 100

/-- `LANE_COUNT = 3`. -/
def LANE_COUNT : ℕ := 3

/-- `ROAD_LEFT = (WIDTH - ROAD_WIDTH) // 2 = 275` (exact integer division). -/
def ROAD_LEFT : ℚ := 275

/-- `LANE_WIDTH = ROAD_WIDTH // LANE_COUNT = 450 // 3 = 150` (exact). -/
def LANE_WIDTH : ℚ := 150

/-- `LANE_CENTERS[i] = ROAD_LEFT + LANE_WIDTH // 2 + i * LANE_WIDTH`;
all the integer divisions in the source are exact, so this is the same
formula over ℚ. -/
def laneCenter (l : ℕ) : ℚ := ROAD_LEFT + LANE_WIDTH / 2 + l * LANE_WIDTH

/-- One car, mirroring the mutable fields of the Python `Car` class that
feed the decision, motion and collision logic.  `id` models Python object
identity (every `Car` created by the simulation is a distinct object);
the drawing-only fields (`color`, `sensor_angles`, `sensor_lines`,
`lane_decision`) are omitted, and the constant field
`min_lane_change_interval = 60` is inlined where it is read. -/
structure Car where
  id : ℕ
  x : ℚ
  y : ℚ
  lane : ℕ
  speed : ℚ
  isPlayer : Bool
  targetSpeed : ℚ
  changingLane : Bool
  targetLane : ℕ
  changeProgress : ℚ
  collided : Bool
  lastLaneChangeTime : ℤ
  stuckTimer : ℕ
deriving DecidableEq, Repr, Inhabited

/-- The speed-adjustment block at the top of `Car.autonomous_drive`:
`if abs(self.speed - self.target_speed) > 0.05: self.speed += 0.02 if
self.speed < self.target_speed else -0.1  else: self.speed = self.target_speed`. -/
def adjust_speed (c : Car) : Car :=
  if 1/20 < |c.speed - c.targetSpeed| then
    { c with speed := c.speed + (if c.speed < c.targetSpeed then 1/50 else -(1/10)) }
  else
    { c with speed := c.targetSpeed }

/-- One iteration of the loop in `Car.get_car_in_front`: skip `car == self`
and `car.is_player`; among cars in `lane` strictly ahead (`car.y < self.y`),
keep the strictly closest one seen so far.  The accumulator starts at
`(None, float('inf'))`; infinity is modelled by `⊤ : WithTop ℚ`. -/
def gcifStep (self : Car) (lane : ℕ) (acc : Option Car × WithTop ℚ) (car : Car) :
    Option Car × WithTop ℚ :=
  if car.id = self.id ∨ car.isPlayer = true then acc
  else if car.lane = lane ∧ car.y < self.y then
    if ((self.y - car.y : ℚ) : WithTop ℚ) < acc.2 then
      (some car, ((self.y - car.y : ℚ) : WithTop ℚ))
    else acc
  else acc

/-- `Car.get_car_in_front(self, cars, lane)`: the closest car directly in
front within `lane`, together with its distance (`inf` when none). -/
def get_car_in_front (self : Car) (cars : List Car) (lane : ℕ) :
    Option Car × WithTop ℚ :=
  cars.foldl (gcifStep self lane) (none, ⊤)

/-- `Car.is_lane_safe(self, cars, lane)`: blind-spot check, forward-clearance
check via `get_car_in_front`, and rear-threat check, in source order; any
hit short-circuits to `False`. -/
def is_lane_safe (self : Car) (cars : List Car) (lane : ℕ) : Bool :=
  if cars.any (fun car => decide (¬(car.id = self.id ∨ car.isPlayer = true) ∧
      car.lane = lane ∧ |self.y - car.y| < CAR_HEIGHT * (5/2))) then false
  else if (get_car_in_front self cars lane).1.isSome = true ∧
      (get_car_in_front self cars lane).2 < ((CHANGE_LANE_DISTANCE : ℚ) : WithTop ℚ) then false
  else if cars.any (fun car => decide (¬(car.id = self.id ∨ car.isPlayer = true) ∧
      car.lane = lane ∧ self.y < car.y ∧ car.y - self.y < REAR_THREAT_DISTANCE ∧
      self.speed < car.speed)) then false
  else true

/-- The adjacent-lane candidates built in `Car.autonomous_drive`:
`if self.lane > 0: possible_lanes.append(self.lane - 1)` then
`if self.lane < LANE_COUNT - 1: possible_lanes.append(self.lane + 1)`. -/
def possible_lanes (lane : ℕ) : List ℕ :=
  (if 0 < lane then [lane - 1] else []) ++ (if lane < LANE_COUNT - 1 then [lane + 1] else [])

/-- Python's `max(best :: rest, key)`: scan left to right, replacing the
current best only on a strictly larger key, so the first maximal element
wins. -/
def maxByKey (key : ℕ → WithTop ℚ) : List ℕ → ℕ → ℕ
  | [], best => best
  | l :: ls, best => maxByKey key ls (if key best < key l then l else best)

/-- The decision part of `Car.autonomous_drive` (everything after the speed
adjustment), acting on the already speed-adjusted car `s`:
1. commitment re-check / abort; 2. blocked state: lane-change commit when
off cooldown and a safe lane exists, otherwise braking with the stuck
timer; 3. clear state. -/
def drive_core (s : Car) (cars : List Car) (fc : ℤ) : Car :=
  if s.changingLane = true ∧ is_lane_safe s cars s.targetLane = false then
    { s with changingLane := false, stuckTimer := 0 }
  else if s.changingLane = false ∧ (get_car_in_front s cars s.lane).1.isSome = true ∧
      (get_car_in_front s cars s.lane).2 < ((CHANGE_LANE_DISTANCE : ℚ) : WithTop ℚ) then
    match (if fc - s.lastLaneChangeTime < 60 then ([] : List ℕ)
           else (possible_lanes s.lane).filter (fun l => is_lane_safe s cars l)) with
    | best0 :: rest =>
        { s with changingLane := true,
                 targetLane := maxByKey (fun l => (get_car_in_front s cars l).2) rest best0,
                 targetSpeed := PLAYER_SPEED_MAX, stuckTimer := 0 }
    | [] =>
        { s with stuckTimer := s.stuckTimer + 1,
                 targetSpeed := (((get_car_in_front s cars s.lane).1.map Car.speed).getD 0) -
                   (if 300 < s.stuckTimer + 1 then 1 else (1/10 : ℚ)) }
  else
    if s.changingLane = false then
      { s with targetSpeed := PLAYER_SPEED_MAX, stuckTimer := 0 }
    else s

/-- `Car.autonomous_drive(self, cars, frame_count)`: speed adjustment, then
the decision logic. -/
def autonomous_drive (self : Car) (cars : List Car) (fc : ℤ) : Car :=
  drive_core (adjust_speed self) cars fc

/-- The lane-changing / lateral-positioning block at the end of `Car.move`:
while changing, progress advances by `0.05` and `x` interpolates between the
source and target lane centers; at `progress >= 1.0` the car snaps to the
target lane and stamps `last_lane_change_time`; otherwise `x` relaxes toward
the current lane center. -/
def lane_update (s : Car) (fc : ℤ) : Car :=
  if s.changingLane = true then
    if 1 ≤ s.changeProgress + 1/20 then
      { s with changeProgress := 0, changingLane := false, lane := s.targetLane,
               x := laneCenter s.targetLane, lastLaneChangeTime := fc }
    else
      { s with changeProgress := s.changeProgress + 1/20,
               x := laneCenter s.lane +
                 (laneCenter s.targetLane - laneCenter s.lane) * (s.changeProgress + 1/20) }
  else
    { s with x := s.x + (laneCenter s.lane - s.x) * (1/10) }

/-- The non-player motion block of `Car.move`: drift by the relative speed
`player.speed - self.speed`, and respawn (with oracle-supplied lane `rlane`
and speed `rspeed`) once past `HEIGHT + CAR_HEIGHT * 2`. -/
def npc_motion (self player : Car) (rlane : ℕ) (rspeed : ℚ) : Car :=
  if HEIGHT + CAR_HEIGHT * 2 < self.y + (player.speed - self.speed) then
    { self with y := -(CAR_HEIGHT * 5), lane := rlane, x := laneCenter rlane,
                speed := rspeed }
  else { self with y := self.y + (player.speed - self.speed) }

/-- `Car.move(self, all_cars, frame_count, player_car)`: frozen when
collided; the player runs `autonomous_drive` (and skips the relative-motion
block), non-player cars run the relative-motion/respawn block; then the
shared lane-changing / positioning block runs. -/
def move (self player : Car) (cars : List Car) (fc : ℤ) (rlane : ℕ) (rspeed : ℚ) : Car :=
  if self.collided = true then self
  else if self.isPlayer = true then
    lane_update (autonomous_drive self cars fc) fc
  else
    lane_update (npc_motion self player rlane rspeed) fc

/-- The in-place loop `for car in cars: car.move(cars, frame_count,
player_car)`, made explicit: indices `i, i+1, ...` (bounded by `fuel`) are
updated in order, each `move` reading the list as mutated so far, with
`player_car` being the (already updated, since the player sits at index 0
and moves first) entry at index 0. -/
def moveAllAux (fc : ℤ) (r : ℕ → ℕ × ℚ) : ℕ → ℕ → List Car → List Car
  | _, 0, acc => acc
  | i, fuel + 1, acc =>
      moveAllAux fc r (i + 1) fuel
        (acc.set i (move (acc.getD i default) (acc.getD 0 default) acc fc (r i).1 (r i).2))

/-- One pass of the per-tick movement loop over the whole car list. -/
def moveAll (cars : List Car) (fc : ℤ) (r : ℕ → ℕ × ℚ) : List Car :=
  moveAllAux fc r 0 cars.length cars

/-- `pygame.Rect.colliderect` for the two `CAR_WIDTH × CAR_HEIGHT` rectangles
centered at the car positions: strict interval overlap on both axes. -/
def rectOverlap (a b : Car) : Bool :=
  decide (|a.x - b.x| < CAR_WIDTH ∧ |a.y - b.y| < CAR_HEIGHT)

/-- The collision loop of `Car.update_sensors_and_check_collision`: index of
the first car (in list order) that is not `self` and overlaps `self`'s
rectangle. -/
def findHitIdx (p : Car) : List Car → Option ℕ
  | [] => none
  | c :: cs =>
      if ¬(c.id = p.id) ∧ rectOverlap p c = true then some 0
      else (findHitIdx p cs).map (· + 1)

/-- `player_car.update_sensors_and_check_collision(cars)` as invoked by the
main loop: nothing happens when the player is already collided; otherwise
the first overlapping car and the player are both marked `collided` and the
loop breaks.  (The sensor-line geometry it also computes is drawing-only
state and is omitted.) -/
def update_sensors_and_check_collision (cars : List Car) : List Car :=
  if (cars.getD 0 default).collided = true then cars
  else
    match findHitIdx (cars.getD 0 default) cars with
    | none => cars
    | some i =>
        (cars.set i { cars.getD i default with collided := true }).set 0
          { cars.getD 0 default with collided := true }

/-- One tick of the main loop's simulation phase: the movement loop over all
cars (player first, at index 0, as built by `reset_simulation`), then the
player's collision check. -/
def step (cars : List Car) (fc : ℤ) (r : ℕ → ℕ × ℚ) : List Car :=
  update_sensors_and_check_collision (moveAll cars fc r)

/-- Modelled from the spec: the per-tick ordering claimed in the spec,
"Traffic Motion Updater repositions non-player vehicles → Decision Engine
… → collision check".  The non-player cars (indices 1 and up) move first;
the agent (index 0) moves afterwards, so its decision observes the
non-player positions already updated for this tick.  Used only as the
comparand for the ordering claim. -/
def step_spec (cars : List Car) (fc : ℤ) (r : ℕ → ℕ × ℚ) : List Car :=
  let m := moveAllAux fc r 1 (cars.length - 1) cars
  update_sensors_and_check_collision
    (m.set 0 (move (m.getD 0 default) (m.getD 0 default) m fc (r 0).1 (r 0).2))

/-! ### Concrete test worlds

Small concrete configurations (an agent at the `reset_simulation` start
position `(LANE_CENTERS[1], HEIGHT - 100) = (500, 700)` in lane 1, plus one
or two non-player cars) used to instantiate the theorems below on closed
inputs. -/

/-- An agent car in lane 1 at the spawn position, matching
`Car(LANE_CENTERS[1], HEIGHT - 100, 1, speed, BLUE, True)` with the given
speed and target speed. -/
def mkPlayer (speed targetSpeed : ℚ) : Car :=
  { id := 0, x := 500, y := 700, lane := 1, speed := speed, isPlayer := true,
    targetSpeed := targetSpeed, changingLane := false, targetLane := 1,
    changeProgress := 0, collided := false, lastLaneChangeTime := 0, stuckTimer := 0 }

/-- A non-player car with the given identity, lane and longitudinal
position, at its lane center. -/
def mkNpc (id lane : ℕ) (y speed : ℚ) : Car :=
  { id := id, x := laneCenter lane, y := y, lane := lane, speed := speed,
    isPlayer := false, targetSpeed := speed, changingLane := false,
    targetLane := lane, changeProgress := 0, collided := false,
    lastLaneChangeTime := 0, stuckTimer := 0 }

/-- C1 counterexample: the agent mid lane-change (progress 0.4) toward lane
0 while a non-player car sits in lane 0 within the blind-spot radius. -/
def c1P : Car :=
  { mkPlayer 4 5 with changingLane := true, targetLane := 0, changeProgress := 2/5,
                      x := 440 }

/-- C1 counterexample: the blind-spot car in lane 0, 50 units ahead of the
agent. -/
def c1N : Car := mkNpc 1 0 650 4

/-- C2 counterexample: agent at speed 4.5. -/
def c2P : Car := mkPlayer (9/2) (9/2)

/-- C2 counterexample: a slower car in the agent's lane at pre-motion
distance 150.5 (just outside the blocking radius), which the tick's motion
update brings to 149.5 (inside it). -/
def c2N : Car := mkNpc 1 1 (1099/2) (7/2)

/-- C3: two non-player cars both overlapping the agent's rectangle. -/
def c3P : Car := mkPlayer 4 4

def c3A : Car := mkNpc 1 1 660 4

def c3B : Car := mkNpc 2 1 680 4

/-- C3 witness: a pre-collided non-player car (for the persistence part). -/
def c3C : Car := { mkNpc 3 1 600 (7/2) with collided := true }

/-- C5 witness: agent blocked by a car 100 ahead in its lane. -/
def c5P : Car := mkPlayer 4 4

def c5N : Car := mkNpc 1 1 600 (7/2)

/-- C6 witness: agent blocked in lane 1 with lanes 0 and 2 free. -/
def c6P : Car := mkPlayer 4 4

def c6N : Car := mkNpc 1 1 600 (7/2)

/-- C7 witness: same blocked configuration, off cooldown. -/
def c7P : Car := mkPlayer 4 4

def c7N : Car := mkNpc 1 1 600 (7/2)

/-- C8 witness: a collided (frozen) non-player car near the agent. -/
def c8P : Car := mkPlayer 4 4

def c8N : Car := { mkNpc 1 1 600 (7/2) with collided := true }

/-- C9 witness: a blocking car in lane 1 only; lanes 0 and 2 are empty. -/
def c9P : Car := mkPlayer 4 4

def c9N : Car := mkNpc 1 1 600 (7/2)

/-- C10 witness: a non-player car overlapping the agent. -/
def c10P : Car := mkPlayer 4 4

def c10N : Car := mkNpc 1 1 660 4

/-- A degenerate randomness oracle for the witnesses (never consulted,
since no witness car reaches the respawn line). -/
def noRand : ℕ → ℕ × ℚ := fun _ => (0, 0)

/-! ### Basic facts about the embedded operations -/

theorem adjust_speed_id (c : Car) : (adjust_speed c).id = c.id := by
  unfold adjust_speed; split <;> rfl

theorem adjust_speed_x (c : Car) : (adjust_speed c).x = c.x := by
  unfold adjust_speed; split <;> rfl

theorem adjust_speed_y (c : Car) : (adjust_speed c).y = c.y := by
  unfold adjust_speed; split <;> rfl

theorem adjust_speed_lane (c : Car) : (adjust_speed c).lane = c.lane := by
  unfold adjust_speed; split <;> rfl

theorem adjust_speed_isPlayer (c : Car) : (adjust_speed c).isPlayer = c.isPlayer := by
  unfold adjust_speed; split <;> rfl

theorem adjust_speed_targetSpeed (c : Car) : (adjust_speed c).targetSpeed = c.targetSpeed := by
  unfold adjust_speed; split <;> rfl

theorem adjust_speed_changingLane (c : Car) : (adjust_speed c).changingLane = c.changingLane := by
  unfold adjust_speed; split <;> rfl

theorem adjust_speed_targetLane (c : Car) : (adjust_speed c).targetLane = c.targetLane := by
  unfold adjust_speed; split <;> rfl

theorem adjust_speed_changeProgress (c : Car) :
    (adjust_speed c).changeProgress = c.changeProgress := by
  unfold adjust_speed; split <;> rfl

theorem adjust_speed_collided (c : Car) : (adjust_speed c).collided = c.collided := by
  unfold adjust_speed; split <;> rfl

theorem adjust_speed_lastLaneChangeTime (c : Car) :
    (adjust_speed c).lastLaneChangeTime = c.lastLaneChangeTime := by
  unfold adjust_speed; split <;> rfl

theorem adjust_speed_stuckTimer (c : Car) : (adjust_speed c).stuckTimer = c.stuckTimer := by
  unfold adjust_speed; split <;> rfl

/-- Branch 1 of the decision logic: currently changing lane and the target
lane is no longer safe ⇒ abort. -/
theorem drive_core_abort (s : Car) (cars : List Car) (fc : ℤ)
    (h1 : s.changingLane = true) (h2 : is_lane_safe s cars s.targetLane = false) :
    drive_core s cars fc = { s with changingLane := false, stuckTimer := 0 } := by
  unfold drive_core
  rw [if_pos ⟨h1, h2⟩]

/-- Currently changing lane and the target lane is still safe ⇒ no decision
change at all this tick. -/
theorem drive_core_keep (s : Car) (cars : List Car) (fc : ℤ)
    (h1 : s.changingLane = true) (h2 : is_lane_safe s cars s.targetLane = true) :
    drive_core s cars fc = s := by
  unfold drive_core
  rw [if_neg (fun h => by rw [h2] at h; exact absurd h.2 (by simp)),
    if_neg (fun h => by rw [h1] at h; exact absurd h.1 (by simp)),
    if_neg (fun h => by rw [h1] at h; exact absurd h (by simp))]

/-- Branch 2a of the decision logic: blocked, off cooldown and at least one
safe adjacent lane ⇒ commit to the best safe lane. -/
theorem drive_core_commit (s : Car) (cars : List Car) (fc : ℤ) (best0 : ℕ) (rest : List ℕ)
    (hcl : s.changingLane = false)
    (hsome : (get_car_in_front s cars s.lane).1.isSome = true)
    (hdist : (get_car_in_front s cars s.lane).2 < ((CHANGE_LANE_DISTANCE : ℚ) : WithTop ℚ))
    (hcool : ¬(fc - s.lastLaneChangeTime < 60))
    (hsafe : (possible_lanes s.lane).filter (fun l => is_lane_safe s cars l) = best0 :: rest) :
    drive_core s cars fc =
      { s with changingLane := true,
               targetLane := maxByKey (fun l => (get_car_in_front s cars l).2) rest best0,
               targetSpeed := PLAYER_SPEED_MAX, stuckTimer := 0 } := by
  unfold drive_core
  rw [if_neg (fun h => by rw [hcl] at h; exact absurd h.1 (by simp)),
    if_pos ⟨hcl, hsome, hdist⟩, if_neg hcool, hsafe]

/-- Branch 2b of the decision logic: blocked but on cooldown or with no safe
adjacent lane ⇒ increment the stuck timer and brake relative to the
blocking car. -/
theorem drive_core_brake (s : Car) (cars : List Car) (fc : ℤ)
    (hcl : s.changingLane = false)
    (hsome : (get_car_in_front s cars s.lane).1.isSome = true)
    (hdist : (get_car_in_front s cars s.lane).2 < ((CHANGE_LANE_DISTANCE : ℚ) : WithTop ℚ))
    (hno : fc - s.lastLaneChangeTime < 60 ∨
      (possible_lanes s.lane).filter (fun l => is_lane_safe s cars l) = []) :
    drive_core s cars fc =
      { s with stuckTimer := s.stuckTimer + 1,
               targetSpeed := (((get_car_in_front s cars s.lane).1.map Car.speed).getD 0) -
                 (if 300 < s.stuckTimer + 1 then 1 else (1/10 : ℚ)) } := by
  unfold drive_core
  rw [if_neg (fun h => by rw [hcl] at h; exact absurd h.1 (by simp)),
    if_pos ⟨hcl, hsome, hdist⟩]
  rcases hno with hcool | hempty
  · rw [if_pos hcool]
  · by_cases hcool : fc - s.lastLaneChangeTime < 60
    · rw [if_pos hcool]
    · rw [if_neg hcool, hempty]

/-- Branch 3 of the decision logic: not blocked and not changing lane ⇒
cruise at the maximum speed with the stuck timer reset. -/
theorem drive_core_clear (s : Car) (cars : List Car) (fc : ℤ)
    (hcl : s.changingLane = false)
    (hfree : ¬((get_car_in_front s cars s.lane).1.isSome = true ∧
      (get_car_in_front s cars s.lane).2 < ((CHANGE_LANE_DISTANCE : ℚ) : WithTop ℚ))) :
    drive_core s cars fc = { s with targetSpeed := PLAYER_SPEED_MAX, stuckTimer := 0 } := by
  unfold drive_core
  rw [if_neg (fun h => by rw [hcl] at h; exact absurd h.1 (by simp)),
    if_neg (fun h => hfree ⟨h.2.1, h.2.2⟩), if_pos hcl]

theorem drive_core_collided (s : Car) (cars : List Car) (fc : ℤ) :
    (drive_core s cars fc).collided = s.collided := by
  unfold drive_core
  repeat' split
  all_goals rfl

theorem drive_core_isPlayer (s : Car) (cars : List Car) (fc : ℤ) :
    (drive_core s cars fc).isPlayer = s.isPlayer := by
  unfold drive_core
  repeat' split
  all_goals rfl

theorem drive_core_changeProgress (s : Car) (cars : List Car) (fc : ℤ) :
    (drive_core s cars fc).changeProgress = s.changeProgress := by
  unfold drive_core
  repeat' split
  all_goals rfl

theorem drive_core_lane (s : Car) (cars : List Car) (fc : ℤ) :
    (drive_core s cars fc).lane = s.lane := by
  unfold drive_core
  repeat' split
  all_goals rfl

theorem drive_core_x (s : Car) (cars : List Car) (fc : ℤ) :
    (drive_core s cars fc).x = s.x := by
  unfold drive_core
  repeat' split
  all_goals rfl

theorem drive_core_y (s : Car) (cars : List Car) (fc : ℤ) :
    (drive_core s cars fc).y = s.y := by
  unfold drive_core
  repeat' split
  all_goals rfl

theorem drive_core_speed (s : Car) (cars : List Car) (fc : ℤ) :
    (drive_core s cars fc).speed = s.speed := by
  unfold drive_core
  repeat' split
  all_goals rfl

theorem drive_core_lastLaneChangeTime (s : Car) (cars : List Car) (fc : ℤ) :
    (drive_core s cars fc).lastLaneChangeTime = s.lastLaneChangeTime := by
  unfold drive_core
  repeat' split
  all_goals rfl

theorem autonomous_drive_collided (self : Car) (cars : List Car) (fc : ℤ) :
    (autonomous_drive self cars fc).collided = self.collided := by
  rw [autonomous_drive, drive_core_collided, adjust_speed_collided]

theorem autonomous_drive_isPlayer (self : Car) (cars : List Car) (fc : ℤ) :
    (autonomous_drive self cars fc).isPlayer = self.isPlayer := by
  rw [autonomous_drive, drive_core_isPlayer, adjust_speed_isPlayer]

theorem autonomous_drive_changeProgress (self : Car) (cars : List Car) (fc : ℤ) :
    (autonomous_drive self cars fc).changeProgress = self.changeProgress := by
  rw [autonomous_drive, drive_core_changeProgress, adjust_speed_changeProgress]

theorem lane_update_collided (s : Car) (fc : ℤ) :
    (lane_update s fc).collided = s.collided := by
  unfold lane_update
  repeat' split
  all_goals rfl

theorem lane_update_y (s : Car) (fc : ℤ) : (lane_update s fc).y = s.y := by
  unfold lane_update
  repeat' split
  all_goals rfl

theorem lane_update_speed (s : Car) (fc : ℤ) : (lane_update s fc).speed = s.speed := by
  unfold lane_update
  repeat' split
  all_goals rfl

theorem lane_update_isPlayer (s : Car) (fc : ℤ) :
    (lane_update s fc).isPlayer = s.isPlayer := by
  unfold lane_update
  repeat' split
  all_goals rfl

/-- `lane_update` can complete or continue a lane change but never starts
one: the flag is true afterwards only if it was true before. -/
theorem lane_update_changingLane (s : Car) (fc : ℤ)
    (h : (lane_update s fc).changingLane = true) : s.changingLane = true := by
  by_cases hc : s.changingLane = true
  · exact hc
  · rw [lane_update, if_neg hc] at h
    exact absurd h (by simp_all)

/-- A collided car is completely frozen by `Car.move` (the early
`if self.collided: return`). -/
theorem move_frozen (self player : Car) (cars : List Car) (fc : ℤ) (rl : ℕ) (rs : ℚ)
    (h : self.collided = true) : move self player cars fc rl rs = self := by
  rw [move, if_pos h]

theorem npc_motion_collided (self player : Car) (rl : ℕ) (rs : ℚ) :
    (npc_motion self player rl rs).collided = self.collided := by
  unfold npc_motion; split <;> rfl

theorem npc_motion_changingLane (self player : Car) (rl : ℕ) (rs : ℚ) :
    (npc_motion self player rl rs).changingLane = self.changingLane := by
  unfold npc_motion; split <;> rfl

theorem npc_motion_changeProgress (self player : Car) (rl : ℕ) (rs : ℚ) :
    (npc_motion self player rl rs).changeProgress = self.changeProgress := by
  unfold npc_motion; split <;> rfl

theorem npc_motion_targetLane (self player : Car) (rl : ℕ) (rs : ℚ) :
    (npc_motion self player rl rs).targetLane = self.targetLane := by
  unfold npc_motion; split <;> rfl

theorem move_collided (self player : Car) (cars : List Car) (fc : ℤ) (rl : ℕ) (rs : ℚ) :
    (move self player cars fc rl rs).collided = self.collided := by
  unfold move
  split
  · rfl
  · split
    · rw [lane_update_collided, autonomous_drive_collided]
    · rw [lane_update_collided, npc_motion_collided]

/-! ### List-index helpers for the sequential in-place update loops -/

theorem getD_set_ne {α : Type _} (l : List α) (i j : ℕ) (a d : α) (h : i ≠ j) :
    (l.set i a).getD j d = l.getD j d := by
  rw [List.getD_eq_getElem?_getD, List.getD_eq_getElem?_getD, List.getElem?_set_ne h]

theorem getD_set_self {α : Type _} (l : List α) (i : ℕ) (a d : α) (h : i < l.length) :
    (l.set i a).getD i d = a := by
  rw [List.getD_eq_getElem?_getD, List.getElem?_set_self h]
  rfl

theorem set_getD_self {α : Type _} (d : α) :
    ∀ (l : List α) (i : ℕ), l.set i (l.getD i d) = l
  | [], _ => rfl
  | a :: l, 0 => by rw [List.getD_cons_zero]; rfl
  | a :: l, i + 1 => by
      rw [List.getD_cons_succ]
      show a :: l.set i (l.getD i d) = a :: l
      rw [set_getD_self d l i]

/-- Indices strictly below the loop counter are never touched by the rest of
the movement loop. -/
theorem moveAllAux_getD_lt (fc : ℤ) (r : ℕ → ℕ × ℚ) :
    ∀ (fuel i : ℕ) (acc : List Car) (j : ℕ), j < i →
      (moveAllAux fc r i fuel acc).getD j default = acc.getD j default := by
  intro fuel
  induction fuel with
  | zero => intro i acc j _; rfl
  | succ n ih =>
      intro i acc j h
      rw [moveAllAux, ih (i + 1) _ j (Nat.lt_succ_of_lt h),
        getD_set_ne _ _ _ _ _ (by omega)]

/-- A collided car is left untouched by the whole movement loop. -/
theorem moveAllAux_frozen (fc : ℤ) (r : ℕ → ℕ × ℚ) :
    ∀ (fuel i : ℕ) (acc : List Car) (j : ℕ),
      (acc.getD j default).collided = true →
      (moveAllAux fc r i fuel acc).getD j default = acc.getD j default := by
  intro fuel
  induction fuel with
  | zero => intro i acc j _; rfl
  | succ n ih =>
      intro i acc j hc
      rw [moveAllAux]
      by_cases hij : i = j
      · subst hij
        rw [move_frozen _ _ _ _ _ _ hc, set_getD_self, ih (i + 1) acc _ hc]
      · rw [ih (i + 1) _ j (by rwa [getD_set_ne _ _ _ _ _ hij]),
          getD_set_ne _ _ _ _ _ hij]

/-- The movement loop changes no car's `collided` flag. -/
theorem moveAllAux_collided (fc : ℤ) (r : ℕ → ℕ × ℚ) :
    ∀ (fuel i : ℕ) (acc : List Car) (j : ℕ),
      ((moveAllAux fc r i fuel acc).getD j default).collided =
        (acc.getD j default).collided := by
  intro fuel
  induction fuel with
  | zero => intro i acc j; rfl
  | succ n ih =>
      intro i acc j
      rw [moveAllAux, ih (i + 1)]
      by_cases hij : i = j
      · subst hij
        by_cases hlen : i < acc.length
        · rw [getD_set_self _ _ _ _ hlen, move_collided]
        · rw [List.set_eq_of_length_le (Nat.le_of_not_lt hlen)]
      · rw [getD_set_ne _ _ _ _ _ hij]

/-- Characterisation of the index found by the collision loop: it is in
range, is not the player itself, and its rectangle overlaps the player's. -/
theorem findHitIdx_some (p : Car) :
    ∀ (l : List Car) (i : ℕ), findHitIdx p l = some i →
      i < l.length ∧ ¬((l.getD i default).id = p.id) ∧
        rectOverlap p (l.getD i default) = true := by
  intro l
  induction l with
  | nil => intro i h; exact absurd h (by rw [findHitIdx]; simp)
  | cons c cs ih =>
      intro i h
      rw [findHitIdx] at h
      split at h
      · cases h
        refine ⟨Nat.succ_pos _, ?_, ?_⟩
        · rw [List.getD_cons_zero]; exact (by assumption : ¬(c.id = p.id) ∧ _).1
        · rw [List.getD_cons_zero]; exact (by assumption : _ ∧ rectOverlap p c = true).2
      · rcases Option.map_eq_some'.mp h with ⟨i0, hi0, rfl⟩
        rcases ih i0 hi0 with ⟨h1, h2, h3⟩
        exact ⟨Nat.succ_lt_succ h1, by rwa [List.getD_cons_succ], by rwa [List.getD_cons_succ]⟩

/-! ### Facts about `get_car_in_front` -/

/-- The loop invariant of `get_car_in_front`: the returned car is `none`
exactly when the returned distance is still infinite. -/
theorem gcif_foldl_none_iff (self : Car) (lane : ℕ) :
    ∀ (cars : List Car) (acc : Option Car × WithTop ℚ),
      (acc.1 = none ↔ acc.2 = ⊤) →
      ((cars.foldl (gcifStep self lane) acc).1 = none ↔
        (cars.foldl (gcifStep self lane) acc).2 = ⊤) := by
  intro cars
  induction cars with
  | nil => intro acc h; exact h
  | cons c cs ih =>
      intro acc h
      rw [List.foldl_cons]
      refine ih _ ?_
      rw [gcifStep]
      split
      · exact h
      · split
        · split
          · simp
          · exact h
        · exact h

theorem get_car_in_front_none_iff (self : Car) (cars : List Car) (lane : ℕ) :
    (get_car_in_front self cars lane).1 = none ↔
      (get_car_in_front self cars lane).2 = ⊤ :=
  gcif_foldl_none_iff self lane cars (none, ⊤) (by simp)

/-- When no relevant car is ahead, the fold never leaves its accumulator. -/
theorem gcif_foldl_empty (self : Car) (lane : ℕ) :
    ∀ (cars : List Car) (acc : Option Car × WithTop ℚ),
      (∀ car ∈ cars, car.id = self.id ∨ car.isPlayer = true ∨
        ¬(car.lane = lane ∧ car.y < self.y)) →
      cars.foldl (gcifStep self lane) acc = acc := by
  intro cars
  induction cars with
  | nil => intro acc _; rfl
  | cons c cs ih =>
      intro acc h
      rw [List.foldl_cons]
      have hc := h c (List.mem_cons_self c cs)
      have hstep : gcifStep self lane acc c = acc := by
        rw [gcifStep]
        by_cases hskip : c.id = self.id ∨ c.isPlayer = true
        · rw [if_pos hskip]
        · rw [if_neg hskip, if_neg (show ¬(c.lane = lane ∧ c.y < self.y) by tauto)]
      rw [hstep]
      exact ih acc (fun car hcar => h car (List.mem_cons_of_mem c hcar))

/-! ### Facts about `maxByKey` (Python's first-maximal `max(..., key=...)`) -/

theorem maxByKey_mem (key : ℕ → WithTop ℚ) :
    ∀ (l : List ℕ) (a : ℕ), maxByKey key l a ∈ a :: l := by
  intro l
  induction l with
  | nil => intro a; rw [maxByKey]; exact List.mem_cons_self a []
  | cons c cs ih =>
      intro a
      rw [maxByKey]
      split
      · have := ih c
        simp only [List.mem_cons] at this ⊢
        tauto
      · have := ih a
        simp only [List.mem_cons] at this ⊢
        tauto

theorem maxByKey_le (key : ℕ → WithTop ℚ) :
    ∀ (l : List ℕ) (a b : ℕ), b ∈ a :: l → key b ≤ key (maxByKey key l a) := by
  intro l
  induction l with
  | nil =>
      intro a b hb
      rcases List.mem_singleton.mp hb with rfl
      rw [maxByKey]
  | cons c cs ih =>
      intro a b hb
      rw [maxByKey]
      split
      · rcases List.mem_cons.mp hb with rfl | hb2
        · exact le_of_lt (lt_of_lt_of_le (by assumption)
            (ih c c (List.mem_cons_self c cs)))
        · exact ih c b hb2
      · rcases List.mem_cons.mp hb with rfl | hb2
        · exact ih b b (List.mem_cons_self b cs)
        · rcases List.mem_cons.mp hb2 with rfl | hb3
          · exact le_trans (le_of_not_lt (by assumption)) (ih a a (List.mem_cons_self a cs))
          · exact ih a b (List.mem_cons_of_mem a hb3)

/-- The scan only ever replaces the current best on a strict key increase. -/
theorem maxByKey_strict (key : ℕ → WithTop ℚ) :
    ∀ (l : List ℕ) (a : ℕ), maxByKey key l a = a ∨
      (maxByKey key l a ∈ l ∧ key a < key (maxByKey key l a)) := by
  intro l
  induction l with
  | nil => intro a; left; rw [maxByKey]
  | cons c cs ih =>
      intro a
      rw [maxByKey]
      split
      · rcases ih c with h1 | ⟨h2, h3⟩
        · right
          exact ⟨by rw [h1]; exact List.mem_cons_self c cs, by rw [h1]; assumption⟩
        · right
          exact ⟨List.mem_cons_of_mem c h2, lt_trans (by assumption) h3⟩
      · rcases ih a with h1 | ⟨h2, h3⟩
        · left; exact h1
        · right; exact ⟨List.mem_cons_of_mem c h2, h3⟩

/-- On a strictly ascending candidate list, the element returned by the scan
is the smallest among those attaining the maximal key (Python's `max`
returns the first maximal element). -/
theorem maxByKey_first (key : ℕ → WithTop ℚ) :
    ∀ (l : List ℕ) (a : ℕ), (∀ x ∈ l, a < x) → l.Pairwise (· < ·) →
      ∀ b ∈ a :: l, key b = key (maxByKey key l a) → maxByKey key l a ≤ b := by
  intro l
  induction l with
  | nil =>
      intro a _ _ b hb _
      rcases List.mem_singleton.mp hb with rfl
      rw [maxByKey]
  | cons c cs ih =>
      intro a hlt hpw b hb hkey
      rcases List.pairwise_cons.mp hpw with ⟨hc, hpw2⟩
      rw [maxByKey] at hkey ⊢
      by_cases hac : key a < key c
      · rw [if_pos hac] at hkey ⊢
        rcases List.mem_cons.mp hb with heq | hb2
        · exfalso
          have h2 : key c ≤ key (maxByKey key cs c) :=
            maxByKey_le key cs c c (List.mem_cons_self c cs)
          rw [heq] at hkey
          rw [hkey] at hac
          exact absurd (lt_of_le_of_lt h2 hac) (lt_irrefl _)
        · exact ih c hc hpw2 b hb2 hkey
      · rw [if_neg hac] at hkey ⊢
        have hlt2 : ∀ x ∈ cs, a < x := fun x hx => hlt x (List.mem_cons_of_mem c hx)
        rcases List.mem_cons.mp hb with heq | hb2
        · rw [heq] at hkey ⊢
          exact ih a hlt2 hpw2 a (List.mem_cons_self a cs) hkey
        · rcases List.mem_cons.mp hb2 with heq | hb3
          · rcases maxByKey_strict key cs a with h1 | ⟨_, h3⟩
            · rw [h1, heq]
              exact le_of_lt (hlt c (List.mem_cons_self c cs))
            · rw [← hkey, heq] at h3
              exact absurd h3 hac
          · exact ih a hlt2 hpw2 b (List.mem_cons_of_mem a hb3) hkey

/-! ### Claim C4: characterisation of the Lane Safety Evaluator -/

/-- C4: `is_lane_safe` returns true iff (1) no non-agent car other than the
evaluator occupies the candidate lane within `2.5 × CAR_HEIGHT = 125` units
of absolute longitudinal distance, (2) the nearest non-agent car ahead in
the candidate lane, if any, is at distance at least
`CHANGE_LANE_DISTANCE = 150`, and (3) no non-agent car behind in the
candidate lane within `REAR_THREAT_DISTANCE = 100` units is strictly faster
than the evaluating car. -/
theorem C4_is_lane_safe_iff (self : Car) (cars : List Car) (lane : ℕ) :
    is_lane_safe self cars lane = true ↔
      ((∀ car ∈ cars, ¬(car.id = self.id) → car.isPlayer = false → car.lane = lane →
          CAR_HEIGHT * (5/2) ≤ |self.y - car.y|) ∧
       ((get_car_in_front self cars lane).1.isSome = true →
          ((CHANGE_LANE_DISTANCE : ℚ) : WithTop ℚ) ≤ (get_car_in_front self cars lane).2) ∧
       (∀ car ∈ cars, ¬(car.id = self.id) → car.isPlayer = false → car.lane = lane →
          self.y < car.y → car.y - self.y < REAR_THREAT_DISTANCE →
          car.speed ≤ self.speed)) := by
  unfold is_lane_safe
  split_ifs with h1 h2 h3
  · simp only [false_iff]
    rintro ⟨r1, -, -⟩
    rcases List.any_eq_true.mp h1 with ⟨car, hmem, hp⟩
    rcases of_decide_eq_true hp with ⟨hskip, hlane, hnear⟩
    have hid : ¬(car.id = self.id) := fun h => hskip (Or.inl h)
    have hpl : car.isPlayer = false := by
      cases hq : car.isPlayer
      · rfl
      · exact absurd (Or.inr hq) hskip
    exact absurd hnear (not_lt.mpr (r1 car hmem hid hpl hlane))
  · simp only [false_iff]
    rintro ⟨-, r2, -⟩
    exact absurd (r2 h2.1) (not_le.mpr h2.2)
  · simp only [false_iff]
    rintro ⟨-, -, r3⟩
    rcases List.any_eq_true.mp h3 with ⟨car, hmem, hp⟩
    rcases of_decide_eq_true hp with ⟨hskip, hlane, hahead, hdist, hspeed⟩
    have hid : ¬(car.id = self.id) := fun h => hskip (Or.inl h)
    have hpl : car.isPlayer = false := by
      cases hq : car.isPlayer
      · rfl
      · exact absurd (Or.inr hq) hskip
    exact absurd hspeed (not_lt.mpr (r3 car hmem hid hpl hlane hahead hdist))
  · simp only [true_iff]
    refine ⟨?_, ?_, ?_⟩
    · intro car hmem hid hpl hlane
      by_contra hlt
      refine h1 (List.any_eq_true.mpr ⟨car, hmem, decide_eq_true ⟨?_, hlane, not_le.mp hlt⟩⟩)
      rintro (h | h)
      · exact hid h
      · rw [hpl] at h; exact Bool.false_ne_true h
    · intro hsome
      by_contra hlt
      exact h2 ⟨hsome, not_le.mp hlt⟩
    · intro car hmem hid hpl hlane hahead hdist
      by_contra hsp
      refine h3 (List.any_eq_true.mpr
        ⟨car, hmem, decide_eq_true ⟨?_, hlane, hahead, hdist, not_le.mp hsp⟩⟩)
      rintro (h | h)
      · exact hid h
      · rw [hpl] at h; exact Bool.false_ne_true h

/-! ### Claim C5: braking while blocked without an escape lane -/

/-- C5: when the agent is blocked (a car ahead in its lane closer than 150,
not changing lane) and cannot change lane (on cooldown or no safe adjacent
lane), the stuck timer is incremented and the target speed becomes the
blocker's speed minus 1.0 once the timer exceeds 300, minus 0.1 otherwise;
in particular the aggressive brake first fires on the tick that takes the
timer from 300 to 301. -/
theorem C5_blocked_braking (self : Car) (cars : List Car) (fc : ℤ) (front : Car)
    (hcl : self.changingLane = false)
    (hfc : (get_car_in_front (adjust_speed self) cars self.lane).1 = some front)
    (hdist : (get_car_in_front (adjust_speed self) cars self.lane).2 <
      ((CHANGE_LANE_DISTANCE : ℚ) : WithTop ℚ))
    (hno : fc - self.lastLaneChangeTime < 60 ∨
      (possible_lanes self.lane).filter
        (fun l => is_lane_safe (adjust_speed self) cars l) = []) :
    (autonomous_drive self cars fc).stuckTimer = self.stuckTimer + 1 ∧
    (autonomous_drive self cars fc).targetSpeed =
      front.speed - (if 300 < self.stuckTimer + 1 then 1 else (1/10 : ℚ)) ∧
    (self.stuckTimer = 300 → (autonomous_drive self cars fc).targetSpeed = front.speed - 1) ∧
    (self.stuckTimer < 300 →
      (autonomous_drive self cars fc).targetSpeed = front.speed - 1/10) := by
  have hb := drive_core_brake (adjust_speed self) cars fc
    (by rw [adjust_speed_changingLane]; exact hcl)
    (by rw [adjust_speed_lane, hfc]; rfl)
    (by rw [adjust_speed_lane]; exact hdist)
    (by rw [adjust_speed_lane, adjust_speed_lastLaneChangeTime]; exact hno)
  have hst : (autonomous_drive self cars fc).stuckTimer = self.stuckTimer + 1 := by
    rw [autonomous_drive, hb]
    show (adjust_speed self).stuckTimer + 1 = self.stuckTimer + 1
    rw [adjust_speed_stuckTimer]
  have hts : (autonomous_drive self cars fc).targetSpeed =
      front.speed - (if 300 < self.stuckTimer + 1 then 1 else (1/10 : ℚ)) := by
    rw [autonomous_drive, hb]
    show (((get_car_in_front (adjust_speed self) cars
        (adjust_speed self).lane).1.map Car.speed).getD 0) -
      (if 300 < (adjust_speed self).stuckTimer + 1 then 1 else (1/10 : ℚ)) = _
    rw [adjust_speed_stuckTimer, adjust_speed_lane, hfc]
    rfl
  exact ⟨hst, hts,
    fun h => by rw [hts, if_pos (by omega)],
    fun h => by rw [hts, if_neg (by omega)]⟩

/-- Witness for C5 on a closed input: the agent at its spawn position with
a car 100 units ahead in its lane, one tick after starting (so on
cooldown), with stuck timer 0. -/
theorem C5_blocked_braking_witness :
    (autonomous_drive c5P [c5P, c5N] 1).stuckTimer = c5P.stuckTimer + 1 ∧
    (autonomous_drive c5P [c5P, c5N] 1).targetSpeed =
      c5N.speed - (if 300 < c5P.stuckTimer + 1 then 1 else (1/10 : ℚ)) ∧
    (c5P.stuckTimer = 300 → (autonomous_drive c5P [c5P, c5N] 1).targetSpeed = c5N.speed - 1) ∧
    (c5P.stuckTimer < 300 →
      (autonomous_drive c5P [c5P, c5N] 1).targetSpeed = c5N.speed - 1/10) :=
  C5_blocked_braking c5P [c5P, c5N] 1 c5N (by decide) (by decide) (by decide)
    (Or.inl (by decide))

/-! ### Claim C7: the lane-change cooldown gate -/

/-- The decision logic starts a lane change (flag going false → true) only
when off cooldown: the commit branch is unreachable while
`frame_count - last_lane_change_time < 60`. -/
theorem drive_core_initiation (s : Car) (cars : List Car) (fc : ℤ)
    (h0 : s.changingLane = false) (h1 : (drive_core s cars fc).changingLane = true) :
    ¬(fc - s.lastLaneChangeTime < 60) := by
  intro hcool
  unfold drive_core at h1
  rw [if_neg (fun h => by rw [h0] at h; exact absurd h.1 (by simp))] at h1
  by_cases hblocked : s.changingLane = false ∧
      (get_car_in_front s cars s.lane).1.isSome = true ∧
      (get_car_in_front s cars s.lane).2 < ((CHANGE_LANE_DISTANCE : ℚ) : WithTop ℚ)
  · rw [if_pos hblocked, if_pos hcool] at h1
    exact absurd (show s.changingLane = true from h1) (by rw [h0]; simp)
  · rw [if_neg hblocked, if_pos h0] at h1
    exact absurd (show s.changingLane = true from h1) (by rw [h0]; simp)

/-- C7: the agent never initiates a lane change (flag going false → true
during `Car.move`) on a tick closer than 60 ticks to the last completed
lane change. -/
theorem C7_cooldown_gate (self player : Car) (cars : List Car) (fc : ℤ) (rl : ℕ) (rs : ℚ)
    (h0 : self.changingLane = false)
    (h1 : (move self player cars fc rl rs).changingLane = true) :
    60 ≤ fc - self.lastLaneChangeTime := by
  by_cases hcol : self.collided = true
  · rw [move_frozen _ _ _ _ _ _ hcol, h0] at h1
    exact absurd h1 (by simp)
  · rw [move, if_neg hcol] at h1
    by_cases hpl : self.isPlayer = true
    · rw [if_pos hpl] at h1
      have h2 := lane_update_changingLane _ _ h1
      have := drive_core_initiation (adjust_speed self) cars fc
        (by rw [adjust_speed_changingLane]; exact h0) h2
      rw [adjust_speed_lastLaneChangeTime] at this
      omega
    · rw [if_neg hpl] at h1
      have h2 := lane_update_changingLane _ _ h1
      rw [npc_motion_changingLane, h0] at h2
      exact absurd h2 (by simp)

/-- Witness for C7 on a closed input: the blocked agent at tick 100 with
both side lanes free commits to a lane change, and indeed
`100 - 0 ≥ 60`. -/
theorem C7_cooldown_gate_witness : 60 ≤ (100 : ℤ) - c7P.lastLaneChangeTime :=
  C7_cooldown_gate c7P c7P [c7P, c7N] 100 0 0 (by decide) (by decide)

/-! ### Claim C9: an empty lane reads as an infinite clearance and wins -/

/-- C9: when no non-agent car is ahead of the querying car in lane `l`,
`get_car_in_front` returns `(none, ∞)`; consequently, whenever such a lane
appears among the candidates of the best-lane selection, the selected lane
also has an infinite (`⊤`) clearance — i.e. no car ahead at all — so an
empty lane is never beaten by a lane with a finite nearest-ahead
distance. -/
theorem C9_empty_lane_top (self : Car) (cars : List Car) (lane : ℕ)
    (h : ∀ car ∈ cars, car.id = self.id ∨ car.isPlayer = true ∨
      ¬(car.lane = lane ∧ car.y < self.y)) :
    get_car_in_front self cars lane = (none, ⊤) ∧
    (∀ (a : ℕ) (rest : List ℕ), lane ∈ a :: rest →
      (get_car_in_front self cars
        (maxByKey (fun l => (get_car_in_front self cars l).2) rest a)).1 = none ∧
      (get_car_in_front self cars
        (maxByKey (fun l => (get_car_in_front self cars l).2) rest a)).2 = ⊤) := by
  have hempty : get_car_in_front self cars lane = (none, ⊤) :=
    gcif_foldl_empty self lane cars (none, ⊤) h
  refine ⟨hempty, ?_⟩
  intro a rest hmem
  have hle : (get_car_in_front self cars lane).2 ≤ (get_car_in_front self cars
      (maxByKey (fun l => (get_car_in_front self cars l).2) rest a)).2 :=
    maxByKey_le (fun l => (get_car_in_front self cars l).2) rest a lane hmem
  rw [hempty] at hle
  have htop : (get_car_in_front self cars
      (maxByKey (fun l => (get_car_in_front self cars l).2) rest a)).2 = ⊤ :=
    top_le_iff.mp hle
  exact ⟨(get_car_in_front_none_iff self cars _).mpr htop, htop⟩

/-- Witness for C9 on a closed input: lane 0 is empty for the agent's
world, and the best-lane selection over `[0, 2]` picks a lane with no car
ahead. -/
theorem C9_empty_lane_top_witness :
    get_car_in_front c9P [c9P, c9N] 0 = (none, ⊤) ∧
    (∀ (a : ℕ) (rest : List ℕ), 0 ∈ a :: rest →
      (get_car_in_front c9P [c9P, c9N]
        (maxByKey (fun l => (get_car_in_front c9P [c9P, c9N] l).2) rest a)).1 = none ∧
      (get_car_in_front c9P [c9P, c9N]
        (maxByKey (fun l => (get_car_in_front c9P [c9P, c9N] l).2) rest a)).2 = ⊤) :=
  C9_empty_lane_top c9P [c9P, c9N] 0 (by decide)

/-! ### Claim C6: committing to the best safe adjacent lane -/

theorem possible_lanes_sorted (lane : ℕ) : (possible_lanes lane).Pairwise (· < ·) := by
  unfold possible_lanes
  split_ifs <;> simp_all [List.pairwise_cons]
  omega

/-- C6: when the agent is blocked, off cooldown, and some adjacent lane
passes the Lane Safety Evaluator, it commits: `changingLane` is set, the
target speed becomes the cruising maximum, the stuck timer resets, and the
chosen target lane is a safe adjacent lane whose nearest-ahead clearance is
maximal — with the lower lane index preferred on exact ties — while the
other fields of the decision state are left unchanged this tick. -/
theorem C6_commit_best_lane (self : Car) (cars : List Car) (fc : ℤ)
    (hcl : self.changingLane = false)
    (hsome : (get_car_in_front (adjust_speed self) cars self.lane).1.isSome = true)
    (hdist : (get_car_in_front (adjust_speed self) cars self.lane).2 <
      ((CHANGE_LANE_DISTANCE : ℚ) : WithTop ℚ))
    (hcool : 60 ≤ fc - self.lastLaneChangeTime)
    (hsafe : (possible_lanes self.lane).filter
      (fun l => is_lane_safe (adjust_speed self) cars l) ≠ []) :
    (autonomous_drive self cars fc).changingLane = true ∧
    (autonomous_drive self cars fc).targetSpeed = PLAYER_SPEED_MAX ∧
    (autonomous_drive self cars fc).stuckTimer = 0 ∧
    (autonomous_drive self cars fc).targetLane ∈
      (possible_lanes self.lane).filter (fun l => is_lane_safe (adjust_speed self) cars l) ∧
    (∀ l ∈ (possible_lanes self.lane).filter
        (fun l => is_lane_safe (adjust_speed self) cars l),
      (get_car_in_front (adjust_speed self) cars l).2 ≤
        (get_car_in_front (adjust_speed self) cars
          (autonomous_drive self cars fc).targetLane).2) ∧
    (∀ l ∈ (possible_lanes self.lane).filter
        (fun l => is_lane_safe (adjust_speed self) cars l),
      (get_car_in_front (adjust_speed self) cars l).2 =
        (get_car_in_front (adjust_speed self) cars
          (autonomous_drive self cars fc).targetLane).2 →
      (autonomous_drive self cars fc).targetLane ≤ l) ∧
    (autonomous_drive self cars fc).lane = self.lane ∧
    (autonomous_drive self cars fc).changeProgress = self.changeProgress ∧
    (autonomous_drive self cars fc).lastLaneChangeTime = self.lastLaneChangeTime := by
  rcases hlist : (possible_lanes self.lane).filter
      (fun l => is_lane_safe (adjust_speed self) cars l) with - | ⟨best0, rest⟩
  · exact absurd hlist hsafe
  · have hb := drive_core_commit (adjust_speed self) cars fc best0 rest
      (by rw [adjust_speed_changingLane]; exact hcl)
      (by rw [adjust_speed_lane]; exact hsome)
      (by rw [adjust_speed_lane]; exact hdist)
      (by rw [adjust_speed_lastLaneChangeTime]; omega)
      (by rw [adjust_speed_lane]; exact hlist)
    have htl : (autonomous_drive self cars fc).targetLane =
        maxByKey (fun l => (get_car_in_front (adjust_speed self) cars l).2) rest best0 := by
      rw [autonomous_drive, hb]
    have hpw : (best0 :: rest).Pairwise (· < ·) := by
      rw [← hlist]
      exact List.Pairwise.filter _ (possible_lanes_sorted self.lane)
    rcases List.pairwise_cons.mp hpw with ⟨hlt, hpw2⟩
    refine ⟨by rw [autonomous_drive, hb], by rw [autonomous_drive, hb],
      by rw [autonomous_drive, hb], ?_, ?_, ?_,
      by rw [autonomous_drive, hb]; exact (adjust_speed_lane self),
      by rw [autonomous_drive, hb]; exact (adjust_speed_changeProgress self),
      by rw [autonomous_drive, hb]; exact (adjust_speed_lastLaneChangeTime self)⟩
    · rw [htl]
      exact maxByKey_mem _ rest best0
    · intro l hl
      rw [htl]
      exact maxByKey_le (fun l => (get_car_in_front (adjust_speed self) cars l).2)
        rest best0 l hl
    · intro l hl hkey
      rw [htl]
      rw [htl] at hkey
      exact maxByKey_first (fun l => (get_car_in_front (adjust_speed self) cars l).2)
        rest best0 hlt hpw2 l hl hkey

/-- Witness for C6 on a closed input: the blocked agent at tick 100 with
lanes 0 and 2 both empty commits to a best safe lane. -/
theorem C6_commit_best_lane_witness :
    (autonomous_drive c6P [c6P, c6N] 100).changingLane = true ∧
    (autonomous_drive c6P [c6P, c6N] 100).targetSpeed = PLAYER_SPEED_MAX ∧
    (autonomous_drive c6P [c6P, c6N] 100).stuckTimer = 0 ∧
    (autonomous_drive c6P [c6P, c6N] 100).targetLane ∈
      (possible_lanes c6P.lane).filter (fun l => is_lane_safe (adjust_speed c6P) [c6P, c6N] l) ∧
    (∀ l ∈ (possible_lanes c6P.lane).filter
        (fun l => is_lane_safe (adjust_speed c6P) [c6P, c6N] l),
      (get_car_in_front (adjust_speed c6P) [c6P, c6N] l).2 ≤
        (get_car_in_front (adjust_speed c6P) [c6P, c6N]
          (autonomous_drive c6P [c6P, c6N] 100).targetLane).2) ∧
    (∀ l ∈ (possible_lanes c6P.lane).filter
        (fun l => is_lane_safe (adjust_speed c6P) [c6P, c6N] l),
      (get_car_in_front (adjust_speed c6P) [c6P, c6N] l).2 =
        (get_car_in_front (adjust_speed c6P) [c6P, c6N]
          (autonomous_drive c6P [c6P, c6N] 100).targetLane).2 →
      (autonomous_drive c6P [c6P, c6N] 100).targetLane ≤ l) ∧
    (autonomous_drive c6P [c6P, c6N] 100).lane = c6P.lane ∧
    (autonomous_drive c6P [c6P, c6N] 100).changeProgress = c6P.changeProgress ∧
    (autonomous_drive c6P [c6P, c6N] 100).lastLaneChangeTime = c6P.lastLaneChangeTime :=
  C6_commit_best_lane c6P [c6P, c6N] 100 (by decide) (by decide) (by decide) (by decide)
    (by decide)

/-! ### Claims C8 and C10: the collision phase -/

/-- The collision check touches at most the `collided` flag of each entry:
every resulting entry is the original car, possibly with `collided` forced
to `true`. -/
theorem check_getD (cars : List Car) (j : ℕ) :
    (update_sensors_and_check_collision cars).getD j default = cars.getD j default ∨
    (update_sensors_and_check_collision cars).getD j default =
      { cars.getD j default with collided := true } := by
  unfold update_sensors_and_check_collision
  split
  · exact Or.inl rfl
  · split
    · exact Or.inl rfl
    · rename_i i hfind
      rcases findHitIdx_some _ _ _ hfind with ⟨hilen, -, -⟩
      by_cases h0 : 0 = j
      · subst h0
        rw [getD_set_self _ _ _ _ (by rw [List.length_set]; omega)]
        exact Or.inr rfl
      · rw [getD_set_ne _ _ _ _ _ h0]
        by_cases hij : i = j
        · subst hij
          rw [getD_set_self _ _ _ _ hilen]
          exact Or.inr rfl
        · rw [getD_set_ne _ _ _ _ _ hij]
          exact Or.inl rfl

/-- C8: a vehicle whose `collided` flag is set keeps its exact position,
lane and speed across a whole simulation tick: it is never moved, respawned
or given a new decision. -/
theorem C8_collided_frozen (cars : List Car) (fc : ℤ) (r : ℕ → ℕ × ℚ) (j : ℕ)
    (hc : (cars.getD j default).collided = true) :
    ((step cars fc r).getD j default).x = (cars.getD j default).x ∧
    ((step cars fc r).getD j default).y = (cars.getD j default).y ∧
    ((step cars fc r).getD j default).lane = (cars.getD j default).lane ∧
    ((step cars fc r).getD j default).speed = (cars.getD j default).speed := by
  have hm : (moveAll cars fc r).getD j default = cars.getD j default := by
    rw [moveAll]
    exact moveAllAux_frozen fc r cars.length 0 cars j hc
  rw [step]
  rcases check_getD (moveAll cars fc r) j with he | he <;> rw [he, hm]
  · exact ⟨rfl, rfl, rfl, rfl⟩
  · exact ⟨rfl, rfl, rfl, rfl⟩

/-- Witness for C8 on a closed input: a pre-collided non-player car keeps
its position, lane and speed across the tick. -/
theorem C8_collided_frozen_witness :
    ((step [c8P, c8N] 5 noRand).getD 1 default).x = ([c8P, c8N].getD 1 default).x ∧
    ((step [c8P, c8N] 5 noRand).getD 1 default).y = ([c8P, c8N].getD 1 default).y ∧
    ((step [c8P, c8N] 5 noRand).getD 1 default).lane = ([c8P, c8N].getD 1 default).lane ∧
    ((step [c8P, c8N] 5 noRand).getD 1 default).speed = ([c8P, c8N].getD 1 default).speed :=
  C8_collided_frozen [c8P, c8N] 5 noRand 1 (by decide)

/-- C10: the collision check is run only for the agent (index 0), so a
car's `collided` flag can rise on a tick only if that car is the agent or
its (post-motion) rectangle overlaps the agent's; in particular two
non-player cars overlapping only each other are never marked. -/
theorem C10_only_agent_collisions (cars : List Car) (fc : ℤ) (r : ℕ → ℕ × ℚ) (j : ℕ)
    (h0 : (cars.getD j default).collided = false)
    (h1 : ((step cars fc r).getD j default).collided = true) :
    j = 0 ∨ rectOverlap ((moveAll cars fc r).getD 0 default)
      ((moveAll cars fc r).getD j default) = true := by
  by_cases hj : j = 0
  · exact Or.inl hj
  · right
    have hmc : ((moveAll cars fc r).getD j default).collided = false := by
      rw [moveAll, moveAllAux_collided]
      exact h0
    rw [step] at h1
    unfold update_sensors_and_check_collision at h1
    split at h1
    · rw [hmc] at h1
      exact absurd h1 (by simp)
    · split at h1
      · rw [hmc] at h1
        exact absurd h1 (by simp)
      · rename_i i hfind
        rcases findHitIdx_some _ _ _ hfind with ⟨hilen, -, hov⟩
        rw [getD_set_ne _ _ _ _ _ (fun e => hj e.symm)] at h1
        by_cases hij : i = j
        · subst hij
          exact hov
        · rw [getD_set_ne _ _ _ _ _ hij, hmc] at h1
          exact absurd h1 (by simp)

/-- Witness for C10 on a closed input: a non-player car overlapping the
agent is marked, and the theorem's disjunction holds for it. -/
theorem C10_only_agent_collisions_witness :
    1 = 0 ∨ rectOverlap ((moveAll [c10P, c10N] 5 noRand).getD 0 default)
      ((moveAll [c10P, c10N] 5 noRand).getD 1 default) = true :=
  C10_only_agent_collisions [c10P, c10N] 5 noRand 1 (by decide) (by decide)

/-! ### Claim C3: collision marking -/

/-- When the player is not already collided and the scan finds a first
overlap at index `i`, exactly the entries at `i` and `0` get their
`collided` flag forced. -/
theorem check_hit (cars : List Car) (i : ℕ)
    (hp : (cars.getD 0 default).collided = false)
    (hfind : findHitIdx (cars.getD 0 default) cars = some i) :
    update_sensors_and_check_collision cars =
      (cars.set i { cars.getD i default with collided := true }).set 0
        { cars.getD 0 default with collided := true } := by
  unfold update_sensors_and_check_collision
  rw [if_neg (by rw [hp]; simp), hfind]

/-- C3 (amended): `collided` flags persist across every tick, and on a tick
where the (not yet collided) agent's rectangle overlaps some car, the agent
and the FIRST overlapping car in list order are both marked that tick (the
scan breaks there, so later overlapping cars are not marked). -/
theorem C3_first_overlap_and_persistence (cars : List Car) (fc : ℤ) (r : ℕ → ℕ × ℚ)
    (j i : ℕ) :
    ((cars.getD j default).collided = true →
      ((step cars fc r).getD j default).collided = true) ∧
    (((moveAll cars fc r).getD 0 default).collided = false →
      findHitIdx ((moveAll cars fc r).getD 0 default) (moveAll cars fc r) = some i →
      ((step cars fc r).getD 0 default).collided = true ∧
      ((step cars fc r).getD i default).collided = true) := by
  constructor
  · intro hc
    have hm : (moveAll cars fc r).getD j default = cars.getD j default := by
      rw [moveAll]
      exact moveAllAux_frozen fc r cars.length 0 cars j hc
    rw [step]
    rcases check_getD (moveAll cars fc r) j with he | he
    · rw [he, hm]
      exact hc
    · rw [he, hm]
  · intro hp hfind
    rcases findHitIdx_some _ _ _ hfind with ⟨hilen, -, -⟩
    rw [step, check_hit _ _ hp hfind]
    constructor
    · rw [getD_set_self _ _ _ _ (by rw [List.length_set]; omega)]
    · by_cases hi0 : i = 0
      · subst hi0
        rw [getD_set_self _ _ _ _ (by rw [List.length_set]; omega)]
      · rw [getD_set_ne _ _ _ _ _ (fun e => hi0 e.symm),
          getD_set_self _ _ _ _ hilen]

/-- Witness for C3 on closed inputs: a pre-collided car stays collided
across a tick, and in the two-overlap world the agent and the first
overlapping car are marked. -/
theorem C3_first_overlap_and_persistence_witness :
    ((step [c3P, c3C] 5 noRand).getD 1 default).collided = true ∧
    ((step [c3P, c3A, c3B] 1 noRand).getD 0 default).collided = true ∧
    ((step [c3P, c3A, c3B] 1 noRand).getD 1 default).collided = true :=
  ⟨(C3_first_overlap_and_persistence [c3P, c3C] 5 noRand 1 0).1 (by decide),
   ((C3_first_overlap_and_persistence [c3P, c3A, c3B] 1 noRand 0 1).2
     (by decide) (by decide)).1,
   ((C3_first_overlap_and_persistence [c3P, c3A, c3B] 1 noRand 0 1).2
     (by decide) (by decide)).2⟩

/-- C3 counterexample to the claim as stated: in the world where two
non-player cars both overlap the agent after the motion phase, the second
one (index 2) is NOT marked collided on that tick — the scan broke at the
first overlap (index 1). -/
theorem C3_second_overlap_counterexample :
    rectOverlap ((moveAll [c3P, c3A, c3B] 1 noRand).getD 0 default)
      ((moveAll [c3P, c3A, c3B] 1 noRand).getD 2 default) = true ∧
    ((step [c3P, c3A, c3B] 1 noRand).getD 1 default).collided = true ∧
    ((step [c3P, c3A, c3B] 1 noRand).getD 2 default).collided = false :=
  ⟨by decide, by decide, by decide⟩

/-! ### Claim C2: ordering of motion update and decision inside a tick -/

/-- C2 (amended): within a tick the agent — the head of the car list built
by `reset_simulation` — moves and decides FIRST: its post-loop state is
`move` evaluated on the original list, i.e. its decision observes the
non-player positions of the previous tick, not the ones updated for this
tick. -/
theorem C2_agent_moves_first (cars : List Car) (fc : ℤ) (r : ℕ → ℕ × ℚ)
    (h : 0 < cars.length) :
    (moveAll cars fc r).getD 0 default =
      move (cars.getD 0 default) (cars.getD 0 default) cars fc (r 0).1 (r 0).2 := by
  obtain ⟨n, hn⟩ : ∃ n, cars.length = n + 1 := ⟨cars.length - 1, by omega⟩
  rw [moveAll, hn, moveAllAux,
    moveAllAux_getD_lt fc r n 1 _ 0 (by omega),
    getD_set_self _ _ _ _ (by omega)]

/-- Witness for C2 (amended) on a closed input. -/
theorem C2_agent_moves_first_witness :
    (moveAll [c2P, c2N] 10 noRand).getD 0 default =
      move ([c2P, c2N].getD 0 default) ([c2P, c2N].getD 0 default) [c2P, c2N] 10
        (noRand 0).1 (noRand 0).2 :=
  C2_agent_moves_first [c2P, c2N] 10 noRand (by decide)

/-- C2 counterexample to the claim as stated: with the blocking car at
pre-motion distance 150.5 (post-motion 149.5), the real tick (`step`, agent
first) sees distance 150.5 and cruises at the maximum target speed, while
the spec's ordering (`step_spec`, non-player motion first) would see 149.5
and brake to the blocker's speed minus 0.1; the two tick functions disagree
on this world. -/
theorem C2_order_counterexample :
    ((step [c2P, c2N] 10 noRand).getD 0 default).targetSpeed = PLAYER_SPEED_MAX ∧
    ((step_spec [c2P, c2N] 10 noRand).getD 0 default).targetSpeed = c2N.speed - 1/10 ∧
    step [c2P, c2N] 10 noRand ≠ step_spec [c2P, c2N] 10 noRand := by
  have h1 : ((step [c2P, c2N] 10 noRand).getD 0 default).targetSpeed =
      PLAYER_SPEED_MAX := by decide
  have h2 : ((step_spec [c2P, c2N] 10 noRand).getD 0 default).targetSpeed =
      c2N.speed - 1/10 := by decide
  refine ⟨h1, h2, fun he => ?_⟩
  rw [he, h2] at h1
  exact absurd h1 (by decide)

/-! ### Claim C1: the lane-change progress invariant -/

/-- C1 (amended): across one `Car.move`, `changeProgress` stays within
`[0, 1)`; while a change continues it advances by exactly `0.05`; when the
flag is down afterwards the progress is either `0` or its old value; and a
change that reaches progress `1.0` while the target lane is still safe
completes on that tick with progress reset to `0`.  (The abort branch is
the source of the "old value" case: it clears `changingLane` without
resetting `changeProgress`.) -/
theorem C1_progress_amended (self player : Car) (cars : List Car) (fc : ℤ)
    (rl : ℕ) (rs : ℚ)
    (h0 : 0 ≤ self.changeProgress) (h1 : self.changeProgress < 1) :
    (0 ≤ (move self player cars fc rl rs).changeProgress ∧
      (move self player cars fc rl rs).changeProgress < 1) ∧
    (self.collided = false → (move self player cars fc rl rs).changingLane = true →
      (move self player cars fc rl rs).changeProgress = self.changeProgress + 1/20) ∧
    ((move self player cars fc rl rs).changingLane = false →
      (move self player cars fc rl rs).changeProgress = 0 ∨
      (move self player cars fc rl rs).changeProgress = self.changeProgress) ∧
    (self.collided = false → self.changingLane = true →
      is_lane_safe (adjust_speed self) cars self.targetLane = true →
      1 ≤ self.changeProgress + 1/20 →
      (move self player cars fc rl rs).changeProgress = 0 ∧
      (move self player cars fc rl rs).changingLane = false ∧
      (move self player cars fc rl rs).lane = self.targetLane) := by
  by_cases hcol : self.collided = true
  · rw [move_frozen _ _ _ _ _ _ hcol]
    refine ⟨⟨h0, h1⟩, ?_, fun _ => Or.inr rfl, ?_⟩
    · intro hf _
      rw [hcol] at hf
      exact absurd hf (by simp)
    · intro hf _ _ _
      rw [hcol] at hf
      exact absurd hf (by simp)
  · obtain ⟨s2, hmv, hprog, hstable⟩ :
        ∃ s2 : Car, move self player cars fc rl rs = lane_update s2 fc ∧
          s2.changeProgress = self.changeProgress ∧
          (self.changingLane = true →
            is_lane_safe (adjust_speed self) cars self.targetLane = true →
            s2.changingLane = true ∧ s2.targetLane = self.targetLane) := by
      by_cases hpl : self.isPlayer = true
      · refine ⟨autonomous_drive self cars fc, by rw [move, if_neg hcol, if_pos hpl],
          autonomous_drive_changeProgress self cars fc, ?_⟩
        intro hch hsafe
        have hk := drive_core_keep (adjust_speed self) cars fc
          (by rw [adjust_speed_changingLane]; exact hch)
          (by rw [adjust_speed_targetLane]; exact hsafe)
        rw [autonomous_drive, hk, adjust_speed_changingLane, adjust_speed_targetLane]
        exact ⟨hch, rfl⟩
      · refine ⟨npc_motion self player rl rs, by rw [move, if_neg hcol, if_neg hpl],
          npc_motion_changeProgress self player rl rs, ?_⟩
        intro hch _
        rw [npc_motion_changingLane, npc_motion_targetLane]
        exact ⟨hch, rfl⟩
    rw [hmv]
    by_cases hch2 : s2.changingLane = true
    · by_cases hcompl : 1 ≤ s2.changeProgress + 1/20
      · rw [lane_update, if_pos hch2, if_pos hcompl]
        refine ⟨⟨le_refl 0, by norm_num⟩, ?_, fun _ => Or.inl rfl, ?_⟩
        · intro _ hf
          exact absurd (show (false : Bool) = true from hf) (by simp)
        · intro _ hch hsafe _
          exact ⟨rfl, rfl, (hstable hch hsafe).2⟩
      · rw [lane_update, if_pos hch2, if_neg hcompl]
        rw [hprog] at hcompl
        refine ⟨⟨?_, ?_⟩, ?_, ?_, ?_⟩
        · show 0 ≤ s2.changeProgress + 1/20
          rw [hprog]
          linarith
        · show s2.changeProgress + 1/20 < 1
          rw [hprog]
          linarith [not_le.mp hcompl]
        · intro _ _
          show s2.changeProgress + 1/20 = self.changeProgress + 1/20
          rw [hprog]
        · intro hf
          exact absurd (show s2.changingLane = false from hf) (by rw [hch2]; simp)
        · intro _ _ _ hcompl2
          exact absurd hcompl2 hcompl
    · rw [lane_update, if_neg hch2]
      refine ⟨⟨?_, ?_⟩, ?_, fun _ => Or.inr ?_, ?_⟩
      · show 0 ≤ s2.changeProgress
        rw [hprog]
        exact h0
      · show s2.changeProgress < 1
        rw [hprog]
        exact h1
      · intro _ hf
        exact absurd (show s2.changingLane = true from hf) hch2
      · show s2.changeProgress = self.changeProgress
        exact hprog
      · intro _ hch hsafe _
        exact absurd (hstable hch hsafe).1 hch2

/-- Witness for C1 (amended) on a closed input: the mid-change agent of the
counterexample world satisfies all four clauses. -/
theorem C1_progress_amended_witness :
    (0 ≤ (move c1P c1P [c1P, c1N] 100 0 0).changeProgress ∧
      (move c1P c1P [c1P, c1N] 100 0 0).changeProgress < 1) ∧
    (c1P.collided = false → (move c1P c1P [c1P, c1N] 100 0 0).changingLane = true →
      (move c1P c1P [c1P, c1N] 100 0 0).changeProgress = c1P.changeProgress + 1/20) ∧
    ((move c1P c1P [c1P, c1N] 100 0 0).changingLane = false →
      (move c1P c1P [c1P, c1N] 100 0 0).changeProgress = 0 ∨
      (move c1P c1P [c1P, c1N] 100 0 0).changeProgress = c1P.changeProgress) ∧
    (c1P.collided = false → c1P.changingLane = true →
      is_lane_safe (adjust_speed c1P) [c1P, c1N] c1P.targetLane = true →
      1 ≤ c1P.changeProgress + 1/20 →
      (move c1P c1P [c1P, c1N] 100 0 0).changeProgress = 0 ∧
      (move c1P c1P [c1P, c1N] 100 0 0).changingLane = false ∧
      (move c1P c1P [c1P, c1N] 100 0 0).lane = c1P.targetLane) :=
  C1_progress_amended c1P c1P [c1P, c1N] 100 0 0 (by decide) (by decide)

/-- C1 counterexample to the claim as stated: from a reachable-shaped state
with `changingLane = true` and `changeProgress = 0.4` (inside `[0,1]`), the
tick on which the commitment re-check aborts the lane change leaves
`changingLane = false` but `changeProgress = 0.4 ≠ 0` — the abort branch
does not reset the progress. -/
theorem C1_abort_keeps_progress_counterexample :
    (c1P.changingLane = true ∧ 0 ≤ c1P.changeProgress ∧ c1P.changeProgress ≤ 1) ∧
    (move c1P c1P [c1P, c1N] 100 0 0).changingLane = false ∧
    (move c1P c1P [c1P, c1N] 100 0 0).changeProgress = 2/5 :=
  ⟨by decide, by decide, by decide⟩

end SDC
